import Mathlib

/-!
Verification of the notification dispatch pipeline of `medusa-plugin-smtp`
(`src/services/smtp.js`). The JavaScript service is shallowly embedded:
plain-data values become an inductive `JsValue`, monetary amounts are integer
minor units (the data model's MonetaryAmount), a throwing computation is an
`Except Unit` value, and the asynchronous calls to external collaborators
(domain services, the transport) appear as explicit parameters carrying their
awaited outcomes.
-/

namespace Smtp

/-- A JavaScript runtime value, as far as the service manipulates them:
`undefined`, `null`, booleans, (integer) numbers, strings, objects as
association lists, and arrays. -/
inductive JsValue where
  | undefVal : JsValue
  | null : JsValue
  | boolV : Bool → JsValue
  | numV : Int → JsValue
  | strV : String → JsValue
  | obj : List (String × JsValue) → JsValue
  | arr : List JsValue → JsValue

/-- JavaScript truthiness of a `JsValue`: `undefined`, `null`, `false`, `0`
and the empty string are falsy; every object and array (including `{}` and
`[]`) is truthy. -/
def jsTruthy : JsValue → Bool
  | .undefVal => false
  | .null => false
  | .boolV b => b
  | .numV n => n != 0
  | .strV s => !s.isEmpty
  | .obj _ => true
  | .arr _ => true

/-- The JavaScript `a || b` operator on values. -/
def jsOr (a b : JsValue) : JsValue := if jsTruthy a then a else b

/-- First-match lookup of a key in an object's field list. -/
def lookupField : List (String × JsValue) → String → JsValue
  | [], _ => .undefVal
  | (k, v) :: rest, key => if k = key then v else lookupField rest key

/-- Property access `o.k` as an expression that can throw: reading a property
of `null` or `undefined` raises a TypeError; on a non-object primitive it
yields `undefined`; on an object it is field lookup (missing keys give
`undefined`). -/
def jsGetProp : JsValue → String → Except Unit JsValue
  | .undefVal, _ => .error ()
  | .null, _ => .error ()
  | .obj fields, key => .ok (lookupField fields key)
  | _, _ => .ok .undefVal

/-! ## Price formatter (`humanPrice_`, lines 1221–1230)

`humanPrice_` delegates to `humanizeAmount` and `zeroDecimalCurrencies` from
the `medusa-core-utils` dependency: `zeroDecimalCurrencies` is that library's
fixed list of ISO 4217 zero-decimal currency codes, and
`humanizeAmount(amount, currency)` divides by 100 unless the lower-cased
currency is zero-decimal (divisor 1). Amounts are integer minor units
(MonetaryAmount), so `.toFixed(2)` of `amount / 100` prints the quotient with
exactly two decimals and `.toFixed(0)` of an integer prints it verbatim. -/

def zeroDecimalCurrencies : List String :=
  ["bif", "clp", "djf", "gnf", "jpy", "kmf", "krw", "mga", "pyg", "rwf",
   "ugx", "vnd", "vuv", "xaf", "xof", "xpf"]

/-- JavaScript `s.toLowerCase()` on ASCII currency codes: each character is
lower-cased. -/
def jsToLowerCase (s : String) : String := ⟨s.data.map Char.toLower⟩

/-- Two-digit zero-padded rendering of a value below 100. -/
def pad2 (n : Nat) : String := if n < 10 then "0" ++ toString n else toString n

/-- The string `(amount / 100).toFixed(2)` produces for an integer
minor-unit `amount`: sign, integer part, dot, two-digit cents. -/
def toFixed2 (amount : Int) : String :=
  (if amount < 0 then "-" else "")
    ++ toString (amount.natAbs / 100) ++ "." ++ pad2 (amount.natAbs % 100)

/-- Embedding of `humanPrice_(amount, currency)` (lines 1221–1230). A falsy
`amount` (for integers: zero) short-circuits to `"0.00"` before
`humanizeAmount` is ever consulted; otherwise the humanized amount is printed
with 0 decimals for zero-decimal currencies (lower-cased lookup) and 2
decimals for all others. -/
def humanPrice_ (amount : Int) (currency : String) : String :=
  if amount = 0 then "0.00"
  else if zeroDecimalCurrencies.contains (jsToLowerCase currency) then toString amount
  else toFixed2 amount

/-! ## Discount and gift-card descriptors
(`orderPlacedData` lines 545–568, `orderCanceledData` lines 439–462; the two
assemblers contain the identical construction) -/

/-- A discount rule as read by the assemblers: `rule.type` and `rule.value`. -/
structure DiscountRule where
  type : String
  value : Int

/-- A discount as read by the assemblers: `code` and `rule`. -/
structure Discount where
  code : String
  rule : DiscountRule

/-- A gift card as read by the assemblers: `code` and `value`. -/
structure GiftCard where
  code : String
  value : Int

/-- One entry of the assembled `discounts` list. -/
structure DiscountLine where
  is_giftcard : Bool
  code : String
  descriptor : String

/-- Embedding of the discount mapping (lines 441–448 and 547–554): the
descriptor is the raw rule value followed by `%` for a percentage rule and by
a space and the upper-cased currency code for any other rule type. -/
def discountDescriptor (currencyCode : String) (d : Discount) : DiscountLine :=
  { is_giftcard := false
    code := d.code
    descriptor :=
      toString d.rule.value
        ++ (if d.rule.type = "percentage" then "%" else " " ++ currencyCode) }

/-- Embedding of the gift-card mapping (lines 453–459 and 559–565): raw value,
space, currency code, flagged `is_giftcard`. -/
def giftCardLine (currencyCode : String) (gc : GiftCard) : DiscountLine :=
  { is_giftcard := true
    code := gc.code
    descriptor := toString gc.value ++ " " ++ currencyCode }

/-- Embedding of the `discounts` field of the rendered context as built by
`orderPlacedData` (lines 545–568) and `orderCanceledData` (lines 439–462): the
discount descriptors are collected, the gift-card lines are built, and then
`discounts.concat(giftCards)` is evaluated for its value only —
`Array.prototype.concat` does not mutate its receiver and the source discards
the returned array — so the field that reaches the context is the discount
descriptors alone. (An empty `order.discounts` array is still truthy in
JavaScript, so both `if` bodies always run when the relations are loaded.) -/
def orderDiscountsList (discounts : List Discount) (gift_cards : List GiftCard)
    (currencyCode : String) : List DiscountLine :=
  let ds := discounts.map (discountDescriptor currencyCode)
  let _giftCards := gift_cards.map (giftCardLine currencyCode)
  ds

/-! ## Swap line-item partitioning
(`swapCreatedData` lines 936–1000, `swapReceivedData` lines 809–870) -/

/-- The line-item totals the totals service returns for one cart item, as the
swap assemblers read them. -/
structure LineItemTotals where
  total : Int
  subtotal : Int
  tax_total : Int

/-- A decorated cart item of a swap assembler: the `is_return` marker, the
JavaScript-truthy-or-not `variant_id`, and the totals-service response. -/
structure DecoratedItem where
  is_return : Bool
  variant_id : Option String
  totals : LineItemTotals

/-- Truthiness of a variant id: `null`/`undefined` and the empty string are
falsy, any other string is truthy. -/
def jsTruthyId : Option String → Bool
  | none => false
  | some s => !s.isEmpty

/-- Embedding of `swapCreatedData`'s `returnTotal` reduce (lines 958–964): a
line contributes `-total` only when it is flagged `is_return` AND has a truthy
`variant_id`. -/
def swapCreatedReturnTotal (items : List DecoratedItem) : Int :=
  items.foldl
    (fun acc next =>
      if next.is_return && jsTruthyId next.variant_id then
        acc + (-1) * next.totals.total
      else acc)
    0

/-- Embedding of `swapCreatedData`'s `additionalTotal` reduce (lines 966–972):
every line not flagged `is_return` contributes its `total`. -/
def swapCreatedAdditionalTotal (items : List DecoratedItem) : Int :=
  items.foldl
    (fun acc next =>
      if !next.is_return then acc + next.totals.total else acc)
    0

/-- Embedding of `swapReceivedData`'s `returnTotal` reduce (lines 826–831): a
line flagged `is_return` contributes `-(subtotal + tax_total)`; there is no
`variant_id` condition in this assembler. -/
def swapReceivedReturnTotal (items : List DecoratedItem) : Int :=
  items.foldl
    (fun acc next =>
      if next.is_return then
        acc + (-1) * (next.totals.subtotal + next.totals.tax_total)
      else acc)
    0

/-- Embedding of `swapReceivedData`'s `additionalTotal` reduce (lines
833–838). -/
def swapReceivedAdditionalTotal (items : List DecoratedItem) : Int :=
  items.foldl
    (fun acc next =>
      if !next.is_return then
        acc + next.totals.subtotal + next.totals.tax_total
      else acc)
    0

/-- The `return_total` field of `swapCreatedData`'s context (lines 988–991). -/
def swapCreatedReturnTotalField (items : List DecoratedItem)
    (currencyCode : String) : String :=
  humanPrice_ (swapCreatedReturnTotal items) currencyCode ++ " " ++ currencyCode

/-- The `additional_total` field of `swapCreatedData`'s context (lines
996–999). -/
def swapCreatedAdditionalTotalField (items : List DecoratedItem)
    (currencyCode : String) : String :=
  humanPrice_ (swapCreatedAdditionalTotal items) currencyCode ++ " " ++ currencyCode

/-- The `return_total` field of `swapReceivedData`'s context (lines 854–857). -/
def swapReceivedReturnTotalField (items : List DecoratedItem)
    (currencyCode : String) : String :=
  humanPrice_ (swapReceivedReturnTotal items) currencyCode ++ " " ++ currencyCode

/-- The `additional_total` field of `swapReceivedData`'s context (lines
866–869). -/
def swapReceivedAdditionalTotalField (items : List DecoratedItem)
    (currencyCode : String) : String :=
  humanPrice_ (swapReceivedAdditionalTotal items) currencyCode ++ " " ++ currencyCode

/-! ## Return-request shipping total (`returnRequestedData` lines 706–714) -/

/-- JavaScript `Math.round`: nearest integer, ties toward positive
infinity. -/
def jsRound (q : ℚ) : ℤ := ⌊q + 1 / 2⌋

/-- Embedding of the tax-line reduce of `returnRequestedData` (lines
710–713): left fold of `Math.round(acc + base * (rate / 100))` over the
shipping method's tax-line rates, starting from 0. -/
def returnShippingTaxFold (base : ℤ) (rates : List ℚ) : ℤ :=
  rates.foldl (fun acc r => jsRound ((acc : ℚ) + (base : ℚ) * (r / 100))) 0

/-- Embedding of `shippingTotal` (lines 706–714): the shipping method's base
price plus the folded tax contributions. -/
def returnShippingTotal (base : ℤ) (rates : List ℚ) : ℤ :=
  base + returnShippingTaxFold base rates

/-! ## Dispatcher (`sendNotification` lines 178–243, `resendNotification`
lines 245–304, `getTemplateNameForEvent` lines 174–176, `fetchData` lines
134–172, constructor lines 45–89) -/

/-- The four statuses a dispatch result can carry. -/
inductive Status where
  | sent : Status
  | failed : Status
  | noTemplateFound : Status
  | noDataFound : Status
deriving DecidableEq

/-- An attachment as produced by `fetchAttachments`. -/
structure Attachment where
  name : String
  base64 : String
  type : String

/-- What the mail client adapter is invoked with: the template name, the
`message.to` recipient, the `locals.data` render context, and the attachment
list (mapped onto `message.attachments` when non-empty). -/
structure SendOptions where
  template : String
  «to» : JsValue
  data : JsValue
  attachments : List Attachment

/-- The result record `{ to, status, data }` returned to the caller. -/
structure NResult where
  «to» : JsValue
  status : Status
  data : JsValue

/-- Embedding of `getTemplateNameForEvent` (lines 174–176):
`templateMap[eventName] || false` — a missing entry and an empty-string entry
are both falsy and collapse to "no template". -/
def getTemplateNameForEvent (templateMap : List (String × String))
    (eventName : String) : Option String :=
  match templateMap.lookup eventName with
  | some t => if t = "" then none else some t
  | none => none

/-- Embedding of `userPasswordResetData` (lines 1196–1198): the payload is
passed through unchanged. -/
def userPasswordResetData (data : JsValue) : JsValue := data

/-- Embedding of `customerPasswordResetData` (lines 1200–1202): the payload is
passed through unchanged. -/
def customerPasswordResetData (data : JsValue) : JsValue := data

/-- Embedding of `inviteData` (lines 1204–1206): `{ email: data.user_email,
...data }`. Spread keys win over the literal `email` key, which first-match
lookup renders by listing the payload's fields before the fallback entry.
Reading `user_email` of `null`/`undefined` throws. (Index-key spreads of
primitive payloads are not modelled; no claim reaches them.) -/
def inviteData (data : JsValue) : Except Unit JsValue :=
  match data with
  | .undefVal => .error ()
  | .null => .error ()
  | .obj fields => .ok (.obj (fields ++ [("email", lookupField fields "user_email")]))
  | _ => .ok (.obj [("email", .undefVal)])

/-- Embedding of `gcCreatedData` (lines 618–637). The method first evaluates
`this.giftCardService_.retrieve(id, ...)`: when `giftCardService_` is
undefined this throws a TypeError at once. Were a service present (the
parameter carries its `retrieve` outcome), a retrieved card without an order
returns early with `undefined` (bare `return`, lines 623–625), and a card
with a truthy order still throws before returning: `extractLocale(order)`
(line 629) references a variable `order` that is not in scope (ReferenceError;
`giftCard.region.tax_rate` on line 627 can throw a TypeError even earlier). -/
def gcCreatedData (giftCardService : Option (Except Unit JsValue)) :
    Except Unit JsValue :=
  match giftCardService with
  | none => .error ()
  | some retrieveOutcome =>
    match retrieveOutcome with
    | .error e => .error e
    | .ok giftCard =>
      match jsGetProp giftCard "order" with
      | .error e => .error e
      | .ok orderField =>
        if jsTruthy orderField then .error () else .ok .undefVal

/-- Embedding of `fetchData` (lines 134–172): the switch over event names.
The assemblers that aggregate data from the external domain services (orders,
returns, swaps, claims, fulfillments, restock) are abstracted into the
`assembler` parameter carrying their awaited outcomes; the self-contained
cases are inlined. Unrecognized events return the payload unchanged. -/
def fetchData (giftCardService : Option (Except Unit JsValue))
    (assembler : String → JsValue → Except Unit JsValue)
    (event : String) (eventData : JsValue) : Except Unit JsValue :=
  match event with
  | "order.return_requested" => assembler event eventData
  | "swap.shipment_created" => assembler event eventData
  | "claim.shipment_created" => assembler event eventData
  | "order.items_returned" => assembler event eventData
  | "swap.received" => assembler event eventData
  | "swap.created" => assembler event eventData
  | "gift_card.created" => gcCreatedData giftCardService
  | "order.gift_card_created" => gcCreatedData giftCardService
  | "order.placed" => assembler event eventData
  | "order.shipment_created" => assembler event eventData
  | "order.canceled" => assembler event eventData
  | "user.password_reset" => .ok (userPasswordResetData eventData)
  | "customer.password_reset" => .ok (customerPasswordResetData eventData)
  | "invite.created" => inviteData eventData
  | "restock-notification.restocked" => assembler event eventData
  | _ => .ok eventData

/-- Embedding of `sendNotification` (lines 178–243), parametrized on the
awaited outcome of `this.fetchData(event, eventData, gen)`, on the outcome of
`this.fetchAttachments(event, data, gen)` (a function of the assembled data),
and on whether the transport's send resolves. The first component of a
successful result records the mail-client invocation (`none` when the
no-template shortcut returned before any send); the second is the result
record. When template lookup is falsy the method returns
`{ to: '', status: 'noDataFound', data: {} }` (lines 181–187). Otherwise data
assembly, attachment resolution and the `message.to = data.email` read happen
in source order, each propagating a throw; the send outcome is folded into
`'sent'`/`'failed'` and the record returns `sendOptions.message.to`, the
status, and `sendOptions.locals.data || {}` (lines 233–242). -/
def sendNotificationWith (templateMap : List (String × String))
    (fetchDataOutcome : Except Unit JsValue)
    (attachF : String → JsValue → Except Unit (List Attachment))
    (sendOk : Bool) (event : String) :
    Except Unit (Option SendOptions × NResult) :=
  match getTemplateNameForEvent templateMap event with
  | none => .ok (none, ⟨.strV "", .noDataFound, .obj []⟩)
  | some templateName =>
    match fetchDataOutcome with
    | .error e => .error e
    | .ok data =>
      match attachF event data with
      | .error e => .error e
      | .ok attachments =>
        match jsGetProp data "email" with
        | .error e => .error e
        | .ok toField =>
          .ok (some ⟨templateName, toField, data, attachments⟩,
               ⟨toField, if sendOk then Status.sent else Status.failed,
                jsOr data (.obj [])⟩)

/-- The slice of the constructed service state the claims depend on: the
merged template map and the `giftCardService_` field. The constructor (lines
45–89) assigns eleven injected services to fields; `giftCardService_` is not
among them, so it is left undefined in every constructed instance. -/
structure SmtpServiceState where
  templateMap : List (String × String)
  giftCardService_ : Option (Except Unit JsValue)

/-- Embedding of the constructor's state initialization (lines 45–89): the
default template map `{ 'order.placed': 'orderplaced' }` is overridden
whole when the options carry a `templateMap` key (shallow spread merge), and
`giftCardService_` is never assigned. -/
def smtpConstructor (optionsTemplateMap : Option (List (String × String))) :
    SmtpServiceState :=
  { templateMap := optionsTemplateMap.getD [("order.placed", "orderplaced")]
    giftCardService_ := none }

/-- `sendNotification` with the `fetchData` switch wired to the constructed
service state. -/
def sendNotificationFull (svc : SmtpServiceState)
    (assembler : String → JsValue → Except Unit JsValue)
    (attachF : String → JsValue → Except Unit (List Attachment))
    (sendOk : Bool) (event : String) (eventData : JsValue) :
    Except Unit (Option SendOptions × NResult) :=
  sendNotificationWith svc.templateMap
    (fetchData svc.giftCardService_ assembler event eventData)
    attachF sendOk event

/-- A stored notification as `resendNotification` reads it: `event_name`,
`to`, `data`. -/
structure Notification where
  event_name : String
  «to» : JsValue
  data : JsValue

/-- Embedding of `resendNotification` (lines 245–304), parametrized on the
attachment-fetch outcome function and the send outcome; `configTo` is the
value of `config.to`. A falsy template lookup returns `{ to: notification.«to»,
status: 'noTemplateFound', data: notification.data }` (lines 247–253). The
send path reads `notification.data.dynamic_template_data` for the attachment
fetch (a property access that can throw), sets `message.to = config.to ||
notification.to`, never invokes any data assembler, and returns the recipient,
the folded send status, and `notification.data || {}` (lines 299–303). -/
def resendNotification (templateMap : List (String × String))
    (attachF : String → JsValue → Except Unit (List Attachment))
    (sendOk : Bool) (n : Notification) (configTo : JsValue) :
    Except Unit (Option SendOptions × NResult) :=
  match getTemplateNameForEvent templateMap n.event_name with
  | none => .ok (none, ⟨n.«to», .noTemplateFound, n.data⟩)
  | some templateName =>
    match jsGetProp n.data "dynamic_template_data" with
    | .error e => .error e
    | .ok dtd =>
      match attachF n.event_name dtd with
      | .error e => .error e
      | .ok attachments =>
        .ok (some ⟨templateName, jsOr configTo n.«to», n.data, attachments⟩,
             ⟨jsOr configTo n.«to»,
              if sendOk then Status.sent else Status.failed,
              jsOr n.data (.obj [])⟩)

/-! ## Claim theorems -/

/-- C2 counterexample: the zero-amount guard of `humanPrice_` returns the
two-decimal string `"0.00"` for every currency, so the zero-decimal currency
JPY formats as `"0.00"`, not the `"0"` the claim states. -/
theorem humanPrice_zero_jpy_cex :
    humanPrice_ 0 "JPY" = "0.00" ∧ ("0.00" : String) ≠ "0" :=
  ⟨rfl, by decide⟩

/-- C2 amended: an amount of exactly zero formats as `"0.00"` for every
currency — the falsy-amount guard bypasses the general humanizer but ignores
the zero-decimal table — and `humanPrice_(0, "USD") = "0.00"`,
`humanPrice_(0, "JPY") = "0.00"`, `humanPrice_(1050, "USD") = "10.50"`. -/
theorem humanPrice_zero_amended :
    (∀ currency : String, humanPrice_ 0 currency = "0.00")
    ∧ humanPrice_ 0 "USD" = "0.00"
    ∧ humanPrice_ 0 "JPY" = "0.00"
    ∧ humanPrice_ 1050 "USD" = "10.50" := by
  refine ⟨fun currency => ?_, rfl, rfl, rfl⟩
  simp [humanPrice_]

/-- C3 counterexample: a fixed-rule discount of value 500 in USD yields the
descriptor `"500 USD"` — the raw rule value with the currency suffix — not the
`"5.00 USD"` the claim states; the price formatter (which would give
`"5.00"`) is never applied to the rule value. -/
theorem fixedDiscount_descriptor_cex :
    (discountDescriptor "USD" ⟨"FIX", ⟨"fixed", 500⟩⟩).descriptor = "500 USD"
    ∧ ("500 USD" : String) ≠ "5.00 USD"
    ∧ humanPrice_ 500 "USD" = "5.00" :=
  ⟨rfl, by decide, rfl⟩

/-- C3 amended: in the discount list assembled for an order event, a
percentage-rule discount of value 10 yields `"10%"` and a fixed-rule discount
of value 500 in USD yields `"500 USD"` — the raw value with the currency
suffix, without passing through the price formatter. -/
theorem discountDescriptor_amended :
    (discountDescriptor "USD" ⟨"PCT", ⟨"percentage", 10⟩⟩).descriptor = "10%"
    ∧ (discountDescriptor "USD" ⟨"FIX", ⟨"fixed", 500⟩⟩).descriptor = "500 USD"
    ∧ orderDiscountsList [⟨"PCT", ⟨"percentage", 10⟩⟩, ⟨"FIX", ⟨"fixed", 500⟩⟩]
        [] "USD"
      = [⟨false, "PCT", "10%"⟩, ⟨false, "FIX", "500 USD"⟩] :=
  ⟨rfl, rfl, rfl⟩

/-- C9: the gift-card line is built exactly as the claim says — descriptor
`"{value} {CURRENCY}"`, flagged `is_giftcard = true` — but the source discards
the result of `discounts.concat(giftCards)`, so the assembled `discounts`
field never contains it: with one gift card and no discounts the list is
empty, and with a discount present only the discount line appears. -/
theorem giftcard_lines_dropped :
    giftCardLine "USD" ⟨"GC", 10⟩ = ⟨true, "GC", "10 USD"⟩
    ∧ orderDiscountsList [] [⟨"GC", 10⟩] "USD" = []
    ∧ orderDiscountsList [⟨"TEN", ⟨"percentage", 10⟩⟩] [⟨"GC", 10⟩] "USD"
        = [⟨false, "TEN", "10%"⟩] :=
  ⟨rfl, rfl, rfl⟩

/-- C7 counterexample: `swapCreatedData`'s returnTotal reduce requires
`is_return && variant_id`, so a two-line cart whose flagged line (total 500)
has no variant id yields `return_total = "0.00 USD"`, not the formatted
negation `"-5.00 USD"` the claim states for every such cart. -/
theorem swap_return_total_cex :
    swapCreatedReturnTotalField
        [⟨true, none, ⟨500, 400, 100⟩⟩, ⟨false, some "v2", ⟨300, 250, 50⟩⟩]
        "USD"
      = "0.00 USD"
    ∧ humanPrice_ (-(500 : Int)) "USD" ++ " " ++ "USD" = "-5.00 USD"
    ∧ ("0.00 USD" : String) ≠ "-5.00 USD" :=
  ⟨rfl, rfl, by decide⟩

/-- C7 amended: for a two-line swap cart with one line flagged `is_return`
and one not, `return_total` is the formatted negation of the flagged line's
total and `additional_total` the formatted total of the other line, in either
array order — provided, for `swapCreatedData`, that the flagged line has a
truthy `variant_id` (lines without one are skipped by its reduce); in
`swapReceivedData` no variant condition applies and a line's total is its
`subtotal + tax_total`. -/
theorem swap_partition_amended (a b : DecoratedItem) (cc : String)
    (ha : a.is_return = true) (hav : jsTruthyId a.variant_id = true)
    (hb : b.is_return = false) :
    (swapCreatedReturnTotalField [a, b] cc
        = humanPrice_ (-a.totals.total) cc ++ " " ++ cc)
    ∧ (swapCreatedReturnTotalField [b, a] cc
        = humanPrice_ (-a.totals.total) cc ++ " " ++ cc)
    ∧ (swapCreatedAdditionalTotalField [a, b] cc
        = humanPrice_ b.totals.total cc ++ " " ++ cc)
    ∧ (swapCreatedAdditionalTotalField [b, a] cc
        = humanPrice_ b.totals.total cc ++ " " ++ cc)
    ∧ (swapReceivedReturnTotalField [a, b] cc
        = humanPrice_ (-(a.totals.subtotal + a.totals.tax_total)) cc ++ " " ++ cc)
    ∧ (swapReceivedReturnTotalField [b, a] cc
        = humanPrice_ (-(a.totals.subtotal + a.totals.tax_total)) cc ++ " " ++ cc)
    ∧ (swapReceivedAdditionalTotalField [a, b] cc
        = humanPrice_ (b.totals.subtotal + b.totals.tax_total) cc ++ " " ++ cc)
    ∧ (swapReceivedAdditionalTotalField [b, a] cc
        = humanPrice_ (b.totals.subtotal + b.totals.tax_total) cc ++ " " ++ cc) := by
  have h1 : swapCreatedReturnTotal [a, b] = -a.totals.total := by
    simp [swapCreatedReturnTotal, ha, hav, hb]
  have h2 : swapCreatedReturnTotal [b, a] = -a.totals.total := by
    simp [swapCreatedReturnTotal, ha, hav, hb]
  have h3 : swapCreatedAdditionalTotal [a, b] = b.totals.total := by
    simp [swapCreatedAdditionalTotal, ha, hb]
  have h4 : swapCreatedAdditionalTotal [b, a] = b.totals.total := by
    simp [swapCreatedAdditionalTotal, ha, hb]
  have h5 : swapReceivedReturnTotal [a, b]
      = -(a.totals.subtotal + a.totals.tax_total) := by
    simp [swapReceivedReturnTotal, ha, hb]
  have h6 : swapReceivedReturnTotal [b, a]
      = -(a.totals.subtotal + a.totals.tax_total) := by
    simp [swapReceivedReturnTotal, ha, hb]
  have h7 : swapReceivedAdditionalTotal [a, b]
      = b.totals.subtotal + b.totals.tax_total := by
    simp [swapReceivedAdditionalTotal, ha, hb]
  have h8 : swapReceivedAdditionalTotal [b, a]
      = b.totals.subtotal + b.totals.tax_total := by
    simp [swapReceivedAdditionalTotal, ha, hb, add_assoc]
  exact ⟨by simp [swapCreatedReturnTotalField, h1],
         by simp [swapCreatedReturnTotalField, h2],
         by simp [swapCreatedAdditionalTotalField, h3],
         by simp [swapCreatedAdditionalTotalField, h4],
         by simp [swapReceivedReturnTotalField, h5],
         by simp [swapReceivedReturnTotalField, h6],
         by simp [swapReceivedAdditionalTotalField, h7],
         by simp [swapReceivedAdditionalTotalField, h8]⟩

/-- Witness for the amended C7 theorem at a concrete two-line cart: flagged
line of total 500 with a variant id, other line of total 300, in USD. -/
theorem swap_partition_witness :
    swapCreatedReturnTotalField
        [⟨true, some "v1", ⟨500, 400, 100⟩⟩, ⟨false, some "v2", ⟨300, 250, 50⟩⟩]
        "USD"
      = "-5.00 USD"
    ∧ swapCreatedAdditionalTotalField
        [⟨true, some "v1", ⟨500, 400, 100⟩⟩, ⟨false, some "v2", ⟨300, 250, 50⟩⟩]
        "USD"
      = "3.00 USD" := by
  have h := swap_partition_amended ⟨true, some "v1", ⟨500, 400, 100⟩⟩
    ⟨false, some "v2", ⟨300, 250, 50⟩⟩ "USD" rfl rfl rfl
  exact ⟨h.1.trans rfl, h.2.2.1.trans rfl⟩

/-- Auxiliary to C8: a left fold of `Math.round(acc + base * rate / 100)`
starting from an integer accumulator adds each tax line's individually
rounded contribution to the accumulator — the floor absorbs the integer
summand, so no already-rounded value is re-rounded. -/
theorem foldl_jsRound_eq (base : ℤ) (rates : List ℚ) :
    ∀ a : ℤ,
      rates.foldl (fun acc r => jsRound ((acc : ℚ) + (base : ℚ) * (r / 100))) a
        = a + (rates.map (fun r => jsRound ((base : ℚ) * (r / 100)))).sum := by
  induction rates with
  | nil => intro a; simp
  | cons r rs ih =>
    intro a
    have h : jsRound ((a : ℚ) + (base : ℚ) * (r / 100))
        = a + jsRound ((base : ℚ) * (r / 100)) := by
      unfold jsRound
      rw [add_assoc, Int.floor_int_add]
    simp only [List.foldl_cons, List.map_cons, List.sum_cons, ih, h]
    ring

/-- C8: the shipping total of a return request equals the base price plus the
sum over tax lines of each line's individually rounded contribution — the
left fold with `Math.round(acc + base * rate / 100)` over an integer-valued
accumulator equals `base + Σ round(base * rate / 100)`. -/
theorem returnShippingTotal_rounding (base : ℤ) (rates : List ℚ) :
    returnShippingTotal base rates
      = base + (rates.map (fun r => jsRound ((base : ℚ) * (r / 100)))).sum := by
  unfold returnShippingTotal returnShippingTaxFold
  rw [foldl_jsRound_eq base rates 0, zero_add]

/-- C1 counterexample: dispatching an event with no configured template
returns status `noDataFound` — not the `noTemplateFound` the claim states —
with empty recipient and empty data. -/
theorem noTemplate_status_cex :
    sendNotificationWith [] (.ok (.obj [])) (fun _ _ => .ok []) true
        "order.placed"
      = .ok (none, ⟨.strV "", .noDataFound, .obj []⟩)
    ∧ Status.noDataFound ≠ Status.noTemplateFound :=
  ⟨rfl, by decide⟩

/-- C1 amended: for every event with no configured template, the first-send
path returns the terminal record with status `noDataFound` (not
`noTemplateFound`), empty `to` and empty `data`, and the outcome is
independent of the data-assembly outcome, the attachment-resolution outcome
and the transport outcome (none of them is consulted); the `none` first
component records that the mail client is never invoked. -/
theorem noTemplate_shortcut (templateMap : List (String × String))
    (event : String) (fd1 fd2 : Except Unit JsValue)
    (at1 at2 : String → JsValue → Except Unit (List Attachment))
    (s1 s2 : Bool)
    (h : getTemplateNameForEvent templateMap event = none) :
    sendNotificationWith templateMap fd1 at1 s1 event
      = .ok (none, ⟨.strV "", .noDataFound, .obj []⟩)
    ∧ sendNotificationWith templateMap fd1 at1 s1 event
      = sendNotificationWith templateMap fd2 at2 s2 event := by
  constructor <;> simp [sendNotificationWith, h]

/-- Witness for the amended C1 theorem: empty template map, failing assembler
and attachment outcomes, rejecting transport — the shortcut record is still
produced. -/
theorem noTemplate_shortcut_witness :
    sendNotificationWith [] (.error ()) (fun _ _ => .error ()) false
        "order.canceled"
      = .ok (none, ⟨.strV "", .noDataFound, .obj []⟩) :=
  (noTemplate_shortcut [] "order.canceled" (.error ()) (.ok .undefVal)
    (fun _ _ => .error ()) (fun _ _ => .ok []) false true rfl).1

/-- C4 counterexample: a `user.password_reset` dispatch with a configured
template and a payload with no `email` field reaches the send stage — the
mail client is invoked (first component `some ...`) with `message.to`
undefined, refuting the claim that send is never invoked with an empty or
missing recipient. -/
theorem send_missing_email_cex :
    sendNotificationFull (smtpConstructor (some [("user.password_reset", "pw")]))
        (fun _ _ => .error ()) (fun _ _ => .ok []) true "user.password_reset"
        (.obj [("token", .strV "tok")])
      = .ok (some ⟨"pw", .undefVal, .obj [("token", .strV "tok")], []⟩,
             ⟨.undefVal, .sent, .obj [("token", .strV "tok")]⟩) :=
  rfl

/-- C4 amended: every dispatch that reaches the send stage hands the mail
client exactly the assembled data's `email` field as recipient — whatever it
is, including undefined or empty; `sendNotification` applies no non-empty
guard. -/
theorem send_recipient_passthrough (templateMap : List (String × String))
    (event templateName : String) (data recipient : JsValue)
    (attachF : String → JsValue → Except Unit (List Attachment))
    (atts : List Attachment) (sendOk : Bool)
    (ht : getTemplateNameForEvent templateMap event = some templateName)
    (hat : attachF event data = .ok atts)
    (he : jsGetProp data "email" = .ok recipient) :
    sendNotificationWith templateMap (.ok data) attachF sendOk event
      = .ok (some ⟨templateName, recipient, data, atts⟩,
             ⟨recipient, if sendOk then Status.sent else Status.failed,
              jsOr data (.obj [])⟩) := by
  simp [sendNotificationWith, ht, hat, he]

/-- Witness for the amended C4 theorem: empty assembled object, recipient
undefined, mail client still invoked. -/
theorem send_recipient_passthrough_witness :
    sendNotificationWith [("user.password_reset", "pw")] (.ok (.obj []))
        (fun _ _ => .ok []) true "user.password_reset"
      = .ok (some ⟨"pw", .undefVal, .obj [], []⟩, ⟨.undefVal, .sent, .obj []⟩) :=
  send_recipient_passthrough [("user.password_reset", "pw")]
    "user.password_reset" "pw" (.obj []) .undefVal (fun _ _ => .ok []) [] true
    rfl rfl rfl

/-- C5: on both the first-send and the resend path, once the send stage is
reached the result record is returned in both transport outcomes — a
rejection is folded into status `failed`, a resolution into `sent`, and the
returned `to` and `data` fields are identical in the two outcomes. -/
theorem send_rejection_swallowed (templateMap : List (String × String))
    (event templateName : String) (data recipient : JsValue)
    (attachF : String → JsValue → Except Unit (List Attachment))
    (atts : List Attachment)
    (n : Notification) (templateName2 : String) (configTo dtd : JsValue)
    (attachF2 : String → JsValue → Except Unit (List Attachment))
    (atts2 : List Attachment)
    (ht : getTemplateNameForEvent templateMap event = some templateName)
    (hat : attachF event data = .ok atts)
    (he : jsGetProp data "email" = .ok recipient)
    (ht2 : getTemplateNameForEvent templateMap n.event_name = some templateName2)
    (hdtd : jsGetProp n.data "dynamic_template_data" = .ok dtd)
    (hat2 : attachF2 n.event_name dtd = .ok atts2) :
    (sendNotificationWith templateMap (.ok data) attachF true event
       = .ok (some ⟨templateName, recipient, data, atts⟩,
              ⟨recipient, .sent, jsOr data (.obj [])⟩))
    ∧ (sendNotificationWith templateMap (.ok data) attachF false event
       = .ok (some ⟨templateName, recipient, data, atts⟩,
              ⟨recipient, .failed, jsOr data (.obj [])⟩))
    ∧ (resendNotification templateMap attachF2 true n configTo
       = .ok (some ⟨templateName2, jsOr configTo n.«to», n.data, atts2⟩,
              ⟨jsOr configTo n.«to», .sent, jsOr n.data (.obj [])⟩))
    ∧ (resendNotification templateMap attachF2 false n configTo
       = .ok (some ⟨templateName2, jsOr configTo n.«to», n.data, atts2⟩,
              ⟨jsOr configTo n.«to», .failed, jsOr n.data (.obj [])⟩)) := by
  refine ⟨?_, ?_, ?_, ?_⟩ <;>
    simp [sendNotificationWith, resendNotification, ht, hat, he, ht2, hdtd,
      hat2]

/-- Witness for the C5 theorem: a concrete `order.placed` dispatch whose
transport rejects still returns the record with status `failed` and the
assembled recipient and data. -/
theorem send_rejection_swallowed_witness :
    sendNotificationWith [("order.placed", "op")]
        (.ok (.obj [("email", .strV "a@b")])) (fun _ _ => .ok []) false
        "order.placed"
      = .ok (some ⟨"op", .strV "a@b", .obj [("email", .strV "a@b")], []⟩,
             ⟨.strV "a@b", .failed, .obj [("email", .strV "a@b")]⟩) := by
  have h := send_rejection_swallowed [("order.placed", "op")] "order.placed"
    "op" (.obj [("email", .strV "a@b")]) (.strV "a@b") (fun _ _ => .ok []) []
    ⟨"order.placed", .strV "x@y", .obj []⟩ "op" .undefVal .undefVal
    (fun _ _ => .ok []) [] rfl rfl rfl rfl rfl rfl
  exact h.2.1.trans rfl

/-- C6: for a stored notification with a configured template, the resend path
returns the override recipient when `config.to` is truthy and the original
`to` otherwise, and in both cases the returned data is exactly the stored
notification data — the model of `resendNotification` contains no data
assembler at all, so nothing is re-assembled. -/
theorem resend_override_recipient (templateMap : List (String × String))
    (n : Notification) (templateName : String) (configTo dtd : JsValue)
    (attachF : String → JsValue → Except Unit (List Attachment))
    (atts : List Attachment) (sendOk : Bool)
    (ht : getTemplateNameForEvent templateMap n.event_name = some templateName)
    (hdtd : jsGetProp n.data "dynamic_template_data" = .ok dtd)
    (hat : attachF n.event_name dtd = .ok atts)
    (hdata : jsTruthy n.data = true) :
    (jsTruthy configTo = true →
      resendNotification templateMap attachF sendOk n configTo
        = .ok (some ⟨templateName, configTo, n.data, atts⟩,
               ⟨configTo, if sendOk then Status.sent else Status.failed,
                n.data⟩))
    ∧ (jsTruthy configTo = false →
      resendNotification templateMap attachF sendOk n configTo
        = .ok (some ⟨templateName, n.«to», n.data, atts⟩,
               ⟨n.«to», if sendOk then Status.sent else Status.failed,
                n.data⟩)) := by
  constructor <;> intro hc <;>
    simp [resendNotification, ht, hdtd, hat, jsOr, hc, hdata]

/-- Witness for the C6 theorem: a concrete resend with an override recipient
replaces `to` and returns the stored data unchanged. -/
theorem resend_override_recipient_witness :
    resendNotification [("order.placed", "op")] (fun _ _ => .ok []) true
        ⟨"order.placed", .strV "orig@x", .obj [("k", .numV 1)]⟩
        (.strV "over@y")
      = .ok (some ⟨"op", .strV "over@y", .obj [("k", .numV 1)], []⟩,
             ⟨.strV "over@y", .sent, .obj [("k", .numV 1)]⟩) :=
  (resend_override_recipient [("order.placed", "op")]
    ⟨"order.placed", .strV "orig@x", .obj [("k", .numV 1)]⟩ "op"
    (.strV "over@y") .undefVal (fun _ _ => .ok []) [] true rfl rfl rfl rfl).1 rfl

/-- C10: for the two gift-card events with a configured template,
`sendNotification` throws and never returns a result record: the constructor
leaves `giftCardService_` undefined, so `gcCreatedData` throws at its first
dereference regardless of payload, assembler, attachment and transport
outcomes; and even a hypothetical service would throw for every retrieved
card with a truthy order, since `extractLocale(order)` names an undefined
variable. -/
theorem gcCreated_dispatch_throws
    (optionsTemplateMap : Option (List (String × String)))
    (assembler : String → JsValue → Except Unit JsValue)
    (attachF : String → JsValue → Except Unit (List Attachment))
    (sendOk : Bool) (eventData : JsValue) (t1 t2 : String)
    (h1 : getTemplateNameForEvent (smtpConstructor optionsTemplateMap).templateMap
            "gift_card.created" = some t1)
    (h2 : getTemplateNameForEvent (smtpConstructor optionsTemplateMap).templateMap
            "order.gift_card_created" = some t2) :
    sendNotificationFull (smtpConstructor optionsTemplateMap) assembler attachF
        sendOk "gift_card.created" eventData = .error ()
    ∧ sendNotificationFull (smtpConstructor optionsTemplateMap) assembler attachF
        sendOk "order.gift_card_created" eventData = .error ()
    ∧ (∀ fields : List (String × JsValue),
        jsTruthy (lookupField fields "order") = true →
        gcCreatedData (some (.ok (.obj fields))) = .error ()) := by
  have hgc1 : fetchData (smtpConstructor optionsTemplateMap).giftCardService_
      assembler "gift_card.created" eventData = .error () := rfl
  have hgc2 : fetchData (smtpConstructor optionsTemplateMap).giftCardService_
      assembler "order.gift_card_created" eventData = .error () := rfl
  refine ⟨?_, ?_, ?_⟩
  · simp [sendNotificationFull, sendNotificationWith, h1, hgc1]
  · simp [sendNotificationFull, sendNotificationWith, h2, hgc2]
  · intro fields hf
    simp [gcCreatedData, jsGetProp, hf]

/-- Witness for the C10 theorem: with both gift-card events mapped to
templates, both dispatches throw. -/
theorem gcCreated_dispatch_throws_witness :
    sendNotificationFull
        (smtpConstructor
          (some [("gift_card.created", "gc"), ("order.gift_card_created", "gc2")]))
        (fun _ _ => .ok .undefVal) (fun _ _ => .ok []) true "gift_card.created"
        (.obj [("id", .strV "g1")])
      = .error ()
    ∧ sendNotificationFull
        (smtpConstructor
          (some [("gift_card.created", "gc"), ("order.gift_card_created", "gc2")]))
        (fun _ _ => .ok .undefVal) (fun _ _ => .ok []) true
        "order.gift_card_created" (.obj [("id", .strV "g1")])
      = .error () := by
  have h := gcCreated_dispatch_throws
    (some [("gift_card.created", "gc"), ("order.gift_card_created", "gc2")])
    (fun _ _ => .ok .undefVal) (fun _ _ => .ok []) true
    (.obj [("id", .strV "g1")]) "gc" "gc2" rfl rfl
  exact ⟨h.1, h.2.1⟩

end Smtp
